import Mathlib

/-!
Shallow embedding of the transcript server in `src/main.py`.

The server exposes three transcript routes: `GET /transcript/(video_id)`
(function `get_transcript`), `GET /transcript/(video_id)/languages`
(function `get_available_languages`) and `POST /transcript/batch`
(function `get_batch_transcript`).  Each route calls the external
`youtube_transcript_api` adapter (`ytt_api.fetch` / `ytt_api.list`) and maps
its exceptions to HTTP responses.  The adapter is modelled as an explicit
function argument `String → Except FetchError _`; an exception value is a
pair of the exception class (`FetchErrorKind`) and its string rendering
(`detail`, standing for Python `str(e)`).

Handlers that the claims examine for "does the adapter get called" are
instrumented: they return a pair of the HTTP-level result and the list of
video ids passed to the adapter fetch, in call order.  This second
component is a direct reading of the source control flow: the fetch call
sits after the validation guard, so validation failure produces an empty
call list.
-/

/-- The exception classes raised by the adapter, as imported in
`src/main.py` lines 8-14: `VideoUnavailable`, `NoTranscriptFound`,
`TranscriptsDisabled`, `RequestBlocked`; `other` stands for every other
exception class (for example `YouTubeRequestFailed`), caught by the
`except Exception` arm. -/
inductive FetchErrorKind where
  | videoUnavailable
  | noTranscriptFound
  | transcriptsDisabled
  | requestBlocked
  | other
deriving DecidableEq, Repr

/-- An adapter exception: its class together with its string rendering
(Python `str(e)`). -/
structure FetchError where
  kind : FetchErrorKind
  detail : String
deriving DecidableEq, Repr

/-- One caption segment as produced by the adapter: Python attributes
`segment.text`, `segment.start`, `segment.duration` (numeric values,
modelled as rationals). -/
structure FetchedSegment where
  text : String
  start : ℚ
  duration : ℚ
deriving DecidableEq, Repr

/-- A fetched transcript, as used by the source: an ordered list of
segments plus the transcript-wide `language_code` attribute. -/
structure FetchedTranscript where
  segments : List FetchedSegment
  language_code : String
deriving DecidableEq, Repr

/-- Model of Python `str()` applied to a numeric value, as used in the
batch serializer (`str(segment.duration)`, `str(segment.start)`). -/
def pyStr (q : ℚ) : String := toString q

/-- Model of the Python single-quote character used in the error message
f-strings of `src/main.py`. -/
def pyQuote (s : String) : String := "\x27" ++ s ++ "\x27"

/-- An `HTTPException` as raised by the handlers: `status_code` and
`detail`. -/
structure ErrResponse where
  status_code : Nat
  detail : String
deriving DecidableEq, Repr

/-- One record of the raw transcript data returned by the single-video
endpoint. Modelled from the spec: `fetched_transcript.to_raw_data()` is
external library code; S6 of the spec and the docstring of
`get_transcript` (src/main.py lines 126-141) fix its shape as the ordered
list of records with keys `text`, `start`, `duration`, with `start` and
`duration` numeric. -/
structure RawSegment where
  text : String
  start : ℚ
  duration : ℚ
deriving DecidableEq, Repr

/-- Modelled from the spec: `to_raw_data` of the external library returns
the transcript's segments, in order, as `(text, start, duration)` records
(spec S6: "ordered array of (text, start, duration) (raw segment form)"). -/
def to_raw_data (t : FetchedTranscript) : List RawSegment :=
  t.segments.map fun s => { text := s.text, start := s.start, duration := s.duration }

/-- `GET /transcript/(video_id)` — `get_transcript` of `src/main.py`
lines 114-182.  First component: the HTTP result.  Second component: the
ids passed to `ytt_api.fetch`, in order. -/
def get_transcript (adapter : String → Except FetchError FetchedTranscript)
    (video_id : String) :
    Except ErrResponse (List RawSegment) × List String :=
  if video_id.length == 0 || video_id.length != 11 then
    (.error { status_code := 400,
              detail := "Invalid video ID format. YouTube video IDs must be exactly 11 characters." },
     [])
  else
    match adapter video_id with
    | .ok fetched_transcript => (.ok (to_raw_data fetched_transcript), [video_id])
    | .error e =>
      match e.kind with
      | .videoUnavailable =>
        (.error { status_code := 404,
                  detail := "Video with ID " ++ pyQuote video_id ++ " is not available" }, [video_id])
      | .noTranscriptFound =>
        (.error { status_code := 404,
                  detail := "No transcript found for video ID " ++ pyQuote video_id }, [video_id])
      | .transcriptsDisabled =>
        (.error { status_code := 403,
                  detail := "Transcripts are disabled for video ID " ++ pyQuote video_id }, [video_id])
      | .requestBlocked =>
        (.error { status_code := 429,
                  detail := "Request blocked. Please try again later." }, [video_id])
      | .other =>
        (.error { status_code := 500,
                  detail := "An error occurred while fetching the transcript: " ++ e.detail },
         [video_id])

/-- One element of `transcript_list` as consumed by the languages
endpoint: attributes `language`, `language_code`, `is_generated`,
`is_translatable` of the adapter's transcript metadata. -/
structure TranscriptMeta where
  language : String
  language_code : String
  is_generated : Bool
  is_translatable : Bool
deriving DecidableEq, Repr

/-- The success body of the languages endpoint:
`(video_id, available_transcripts)`. -/
structure LanguagesResponse where
  video_id : String
  available_transcripts : List TranscriptMeta
deriving DecidableEq, Repr

/-- `GET /transcript/(video_id)/languages` — `get_available_languages` of
`src/main.py` lines 184-231.  Note the source catches only
`VideoUnavailable` specifically; every other exception falls into the
`except Exception` arm with status 500 and the "fetching transcript list"
message. -/
def get_available_languages
    (listAdapter : String → Except FetchError (List TranscriptMeta))
    (video_id : String) : Except ErrResponse LanguagesResponse :=
  if video_id.length == 0 || video_id.length != 11 then
    .error { status_code := 400,
             detail := "Invalid video ID format. YouTube video IDs must be exactly 11 characters." }
  else
    match listAdapter video_id with
    | .ok transcript_list =>
      .ok { video_id := video_id,
            available_transcripts := transcript_list.map fun t =>
              { language := t.language, language_code := t.language_code,
                is_generated := t.is_generated, is_translatable := t.is_translatable } }
    | .error e =>
      match e.kind with
      | .videoUnavailable =>
        .error { status_code := 404,
                 detail := "Video with ID " ++ pyQuote video_id ++ " is not available" }
      | _ =>
        .error { status_code := 500,
                 detail := "An error occurred while fetching transcript list: " ++ e.detail }

/-- One segment of a successful batch item (`class TranscriptSegment` of
`src/main.py` lines 59-63): `duration` and `offset` are declared `str`. -/
structure TranscriptSegment where
  text : String
  duration : String
  offset : String
  lang : String
deriving DecidableEq, Repr

/-- One element of the batch response (`class BatchResponseItem` of
`src/main.py` lines 65-68). -/
structure BatchResponseItem where
  success : Bool
  transcript : Option (List TranscriptSegment) := none
  error : Option String := none
deriving DecidableEq, Repr

/-- The error message attached to a failed batch item: the `except` arms
of the batch loop, `src/main.py` lines 294-318. -/
def batchErrorMessage (video_id : String) (e : FetchError) : String :=
  match e.kind with
  | .videoUnavailable => "Video with ID " ++ pyQuote video_id ++ " is not available"
  | .noTranscriptFound => "No transcript found for video ID " ++ pyQuote video_id
  | .transcriptsDisabled => "Transcripts are disabled for video ID " ++ pyQuote video_id
  | .requestBlocked => "Request blocked. Please try again later."
  | .other => "An error occurred while fetching the transcript: " ++ e.detail

/-- The body of one iteration of the batch loop (`src/main.py` lines
273-318): fetch the id; on success serialize each segment with
stringified `duration`/`offset` and the transcript's `language_code`; on
an exception append a failure record with the classified message. -/
def processBatchItem (adapter : String → Except FetchError FetchedTranscript)
    (video_id : String) : BatchResponseItem :=
  match adapter video_id with
  | .ok fetched_transcript =>
    { success := true,
      transcript := some (fetched_transcript.segments.map fun segment =>
        { text := segment.text,
          duration := pyStr segment.duration,
          offset := pyStr segment.start,
          lang := fetched_transcript.language_code }),
      error := none }
  | .error e =>
    { success := false,
      transcript := none,
      error := some (batchErrorMessage video_id e) }

/-- The batch handler body (`get_batch_transcript` of `src/main.py` lines
269-320): iterate the already-validated ids in order, appending one
result per id. -/
def get_batch_transcript (adapter : String → Except FetchError FetchedTranscript)
    (video_requests : List String) : List BatchResponseItem :=
  video_requests.map (processBatchItem adapter)

/-- A request-level rejection produced before the handler body runs. -/
inductive BoundaryError where
  | badRequest
deriving DecidableEq, Repr

/-- `True` iff the string matches the pydantic pattern of `VideoRequest.id`
(`src/main.py` line 49): `[A-Za-z0-9_-]` repeated exactly 11 times. -/
def matchesIdPattern (s : String) : Bool :=
  s.length == 11 && s.toList.all fun c =>
    c.isUpper || c.isLower || c.isDigit || c == '_' || c == '-'

/-- Modelled from the spec: the framework boundary of the batch route.
The source declares the body as a list of `VideoRequest` (each `id`
constrained to the 11-character pattern, `src/main.py` lines 47-57) with
`Field(min_length=1, max_length=10)` (line 236); the enforcement engine
(pydantic/FastAPI) is outside `src/`.  Per spec S4.6/S7, inputs violating
these declared constraints are rejected whole, classified `BadRequest`,
before the handler body runs. -/
def parse_batch_request (raw : List String) : Except BoundaryError (List String) :=
  if raw.length < 1 || raw.length > 10 then
    .error .badRequest
  else if raw.all matchesIdPattern then
    .ok raw
  else
    .error .badRequest

/-- The full `POST /transcript/batch` route: boundary validation followed
by the handler body.  Second component: the ids passed to
`ytt_api.fetch`, in order (the handler fetches every validated id
exactly once, `src/main.py` line 278). -/
def transcript_batch_endpoint (adapter : String → Except FetchError FetchedTranscript)
    (raw : List String) :
    Except BoundaryError (List BatchResponseItem) × List String :=
  match parse_batch_request raw with
  | .error e => (.error e, [])
  | .ok ids => (.ok (get_batch_transcript adapter ids), ids)

/-- Modelled from the spec: the S4.3 ErrorClassifier table for adapter
fetch failures, with the external codes rendered as the HTTP status codes
of S6 (NOT_FOUND 404, FORBIDDEN 403, RATE_LIMITED 429, INTERNAL 500).
This definition follows the spec's words and is compared against the
source handlers. -/
def specClassify (video_id : String) (e : FetchError) : ErrResponse :=
  match e.kind with
  | .videoUnavailable =>
    { status_code := 404, detail := "Video with ID " ++ pyQuote video_id ++ " is not available" }
  | .noTranscriptFound =>
    { status_code := 404, detail := "No transcript found for video ID " ++ pyQuote video_id }
  | .transcriptsDisabled =>
    { status_code := 403, detail := "Transcripts are disabled for video ID " ++ pyQuote video_id }
  | .requestBlocked =>
    { status_code := 429, detail := "Request blocked. Please try again later." }
  | .other =>
    { status_code := 500,
      detail := "An error occurred while fetching the transcript: " ++ e.detail }

/-- A stub adapter that always succeeds with an empty transcript. -/
def stubOk : String → Except FetchError FetchedTranscript :=
  fun _ => .ok { segments := [], language_code := "en" }

/-- A stub adapter that always fails with `RequestBlocked`. -/
def stubBlocked : String → Except FetchError FetchedTranscript :=
  fun _ => .error { kind := .requestBlocked, detail := "blocked" }

/-- A stub language-listing adapter that always fails with
`RequestBlocked`. -/
def stubListBlocked : String → Except FetchError (List TranscriptMeta) :=
  fun _ => .error { kind := .requestBlocked, detail := "Request blocked" }

/-- A stub adapter that succeeds with two segments, language code "en". -/
def stubTwoSegments : String → Except FetchError FetchedTranscript :=
  fun _ => .ok { segments := [{ text := "Hey there", start := 0, duration := 2 },
                              { text := "how are you", start := 2, duration := 4 }],
                 language_code := "en" }

/-- A stub adapter identical to `stubTwoSegments` except that the
transcript's language code is "fr". -/
def stubTwoSegmentsFr : String → Except FetchError FetchedTranscript :=
  fun _ => .ok { segments := [{ text := "Hey there", start := 0, duration := 2 },
                              { text := "how are you", start := 2, duration := 4 }],
                 language_code := "fr" }

/-- A matching pattern check implies length 11. -/
theorem length_of_matchesIdPattern {s : String} (h : matchesIdPattern s = true) :
    s.length = 11 := by
  simp only [matchesIdPattern, Bool.and_eq_true, beq_iff_eq] at h
  exact h.1

/-- A length-11 id makes the single-route validation guard false. -/
theorem guard_false_of_length_eq {s : String} (h : s.length = 11) :
    (s.length == 0 || s.length != 11) = false := by
  simp [h]

/-- C6: for every string whose length is not 11, the single-transcript
handler returns BAD_REQUEST (HTTP 400) with the message "Invalid video ID
format. YouTube video IDs must be exactly 11 characters." and performs no
adapter fetch for that request (the fetch-call list is empty). -/
theorem single_bad_length_rejected
    (adapter : String → Except FetchError FetchedTranscript)
    (video_id : String) (h : video_id.length ≠ 11) :
    get_transcript adapter video_id =
      (.error { status_code := 400,
                detail := "Invalid video ID format. YouTube video IDs must be exactly 11 characters." },
       []) := by
  have hcond : (video_id.length == 0 || video_id.length != 11) = true := by
    simp only [Bool.or_eq_true, beq_iff_eq, bne_iff_ne, ne_eq]
    exact Or.inr h
  simp [get_transcript, hcond]

/-- Witness for C6 at the concrete input "short". -/
theorem single_bad_length_rejected_witness :
    ("short".length ≠ 11) ∧
    get_transcript stubOk "short" =
      (.error { status_code := 400,
                detail := "Invalid video ID format. YouTube video IDs must be exactly 11 characters." },
       []) :=
  ⟨by decide, single_bad_length_rejected stubOk "short" (by decide)⟩

/-- C3: for every valid 11-character video id, the single-transcript
handler maps each adapter failure kind to exactly the external code and
message prescribed by the S4.3 table (modelled by `specClassify`):
VideoUnavailable and NoTranscriptFound to 404, TranscriptsDisabled to
403, RequestBlocked to 429, and any other error to 500 with the
"fetching the transcript" detail template. -/
theorem single_error_classification_matches_table
    (adapter : String → Except FetchError FetchedTranscript)
    (video_id : String) (e : FetchError)
    (hv : matchesIdPattern video_id = true)
    (hf : adapter video_id = .error e) :
    (get_transcript adapter video_id).1 = .error (specClassify video_id e) := by
  have hcond := guard_false_of_length_eq (length_of_matchesIdPattern hv)
  rcases e with ⟨k, d⟩
  cases k <;> simp [get_transcript, specClassify, hcond, hf]

/-- Witness for C3 at id "abcdefghijk" and a RequestBlocked failure. -/
theorem single_error_classification_matches_table_witness :
    matchesIdPattern "abcdefghijk" = true ∧
    (get_transcript stubBlocked "abcdefghijk").1 =
      .error (specClassify "abcdefghijk" { kind := .requestBlocked, detail := "blocked" }) :=
  ⟨by decide,
   single_error_classification_matches_table stubBlocked "abcdefghijk"
     { kind := .requestBlocked, detail := "blocked" } (by decide) rfl⟩

/-- C4 counterexample: "abcdefghij!" has length exactly 11 and contains a
character outside [A-Za-z0-9_-], yet the single-transcript handler does
not reject it: it passes the id to the adapter's fetch (call list
["abcdefghij!"]) and, with a succeeding adapter, returns the 200 body
rather than any 400 validation error. -/
theorem single_bad_charset_reaches_fetch :
    "abcdefghij!".length = 11 ∧
    matchesIdPattern "abcdefghij!" = false ∧
    get_transcript stubOk "abcdefghij!" = (.ok [], ["abcdefghij!"]) :=
  ⟨by decide, by decide, by rfl⟩

/-- C4 amended: the single-transcript handler validates only the length;
a length-11 string, even one containing a character outside
[A-Za-z0-9_-], is never rejected by validation and is always passed to
the adapter's fetch call. -/
theorem single_validates_length_only
    (adapter : String → Except FetchError FetchedTranscript)
    (video_id : String)
    (hlen : video_id.length = 11)
    (_hbad : (video_id.toList.all fun c =>
      c.isUpper || c.isLower || c.isDigit || c == '_' || c == '-') = false) :
    (get_transcript adapter video_id).2 = [video_id] := by
  have hcond := guard_false_of_length_eq hlen
  rcases hf : adapter video_id with e | t
  · rcases e with ⟨k, d⟩
    cases k <;> simp [get_transcript, hcond, hf]
  · simp [get_transcript, hcond, hf]

/-- Witness for C4 amended at the concrete input "abcdefghij!". -/
theorem single_validates_length_only_witness :
    "abcdefghij!".length = 11 ∧
    (("abcdefghij!".toList.all fun c =>
      c.isUpper || c.isLower || c.isDigit || c == '_' || c == '-') = false) ∧
    (get_transcript stubBlocked "abcdefghij!").2 = ["abcdefghij!"] :=
  ⟨by decide, by decide,
   single_validates_length_only stubBlocked "abcdefghij!" (by decide) (by decide)⟩

/-- C9 counterexample: two adapters returning the same segments but
different transcript language codes ("en" versus "fr") produce identical
single-endpoint responses, and that response is the bare
(text, start, duration) records: the returned segments carry no
languageCode annotation, contrary to the claim. -/
theorem single_output_ignores_language_code :
    (get_transcript stubTwoSegments "abcdefghijk").1 =
      .ok [{ text := "Hey there", start := 0, duration := 2 },
           { text := "how are you", start := 2, duration := 4 }] ∧
    (get_transcript stubTwoSegmentsFr "abcdefghijk").1 =
      (get_transcript stubTwoSegments "abcdefghijk").1 :=
  ⟨by rfl, by rfl⟩

/-- C9 amended: for every valid id and adapter success, the
single-transcript handler returns the adapter's segment sequence
unmodified and in the same order, as raw (text, start, duration) records;
the segments are not annotated with the transcript's languageCode (only
the batch path annotates segments with `lang`). -/
theorem single_success_raw_segments
    (adapter : String → Except FetchError FetchedTranscript)
    (video_id : String) (t : FetchedTranscript)
    (hv : matchesIdPattern video_id = true)
    (hf : adapter video_id = .ok t) :
    (get_transcript adapter video_id).1 =
      .ok (t.segments.map fun s =>
        { text := s.text, start := s.start, duration := s.duration }) := by
  have hcond := guard_false_of_length_eq (length_of_matchesIdPattern hv)
  simp [get_transcript, hcond, hf, to_raw_data]

/-- Witness for C9 amended at id "abcdefghijk" with a two-segment
transcript. -/
theorem single_success_raw_segments_witness :
    matchesIdPattern "abcdefghijk" = true ∧
    (get_transcript stubTwoSegments "abcdefghijk").1 =
      .ok (([{ text := "Hey there", start := 0, duration := 2 },
             { text := "how are you", start := 2, duration := 4 }] : List FetchedSegment).map fun s =>
        { text := s.text, start := s.start, duration := s.duration }) :=
  ⟨by decide,
   single_success_raw_segments stubTwoSegments "abcdefghijk"
     { segments := [{ text := "Hey there", start := 0, duration := 2 },
                    { text := "how are you", start := 2, duration := 4 }],
       language_code := "en" } (by decide) rfl⟩

/-- C1: for every batch input within the 1..10 length bound and every
adapter behaviour, the batch handler returns exactly one result per
input position; the result at position i is exactly the processing of
the id at position i against the adapter (so it is determined solely by
that id and the adapter's response for it, independent of every other
position, even when the same id repeats); an adapter change that leaves
the response for the id at position i unchanged leaves the result at
position i unchanged; and an adapter failure on the id at position i
yields a failure entry at position i. -/
theorem batch_positionwise_isolated
    (adapter : String → Except FetchError FetchedTranscript)
    (ids : List String)
    (_hlen : 1 ≤ ids.length ∧ ids.length ≤ 10) :
    (get_batch_transcript adapter ids).length = ids.length ∧
    (∀ i : Nat, (get_batch_transcript adapter ids)[i]? =
      (ids[i]?).map (processBatchItem adapter)) ∧
    (∀ (adapter2 : String → Except FetchError FetchedTranscript) (i : Nat) (id : String),
      ids[i]? = some id → adapter2 id = adapter id →
      (get_batch_transcript adapter2 ids)[i]? = (get_batch_transcript adapter ids)[i]?) ∧
    (∀ (i : Nat) (id : String) (e : FetchError),
      ids[i]? = some id → adapter id = .error e →
      (get_batch_transcript adapter ids)[i]? =
        some { success := false, transcript := none,
               error := some (batchErrorMessage id e) }) := by
  refine ⟨?_, ?_, ?_, ?_⟩
  · simp [get_batch_transcript]
  · intro i
    simp [get_batch_transcript, List.getElem?_map]
  · intro adapter2 i id hi h2
    simp [get_batch_transcript, List.getElem?_map, hi, processBatchItem, h2]
  · intro i id e hi hfe
    simp [get_batch_transcript, List.getElem?_map, hi, processBatchItem, hfe]

/-- Witness for C1: a two-element batch repeating the same id, against an
adapter that fails with RequestBlocked; position 1 carries exactly the
classified failure entry. -/
theorem batch_positionwise_isolated_witness :
    (1 ≤ (["abcdefghijk", "abcdefghijk"] : List String).length ∧
      (["abcdefghijk", "abcdefghijk"] : List String).length ≤ 10) ∧
    (["abcdefghijk", "abcdefghijk"] : List String)[1]? = some "abcdefghijk" ∧
    stubBlocked "abcdefghijk" = .error { kind := .requestBlocked, detail := "blocked" } ∧
    (get_batch_transcript stubBlocked ["abcdefghijk", "abcdefghijk"])[1]? =
      some { success := false, transcript := none,
             error := some (batchErrorMessage "abcdefghijk"
               { kind := .requestBlocked, detail := "blocked" }) } :=
  ⟨by decide, by decide, rfl,
   (batch_positionwise_isolated stubBlocked ["abcdefghijk", "abcdefghijk"]
     (by decide)).2.2.2 1 "abcdefghijk" { kind := .requestBlocked, detail := "blocked" }
     (by decide) rfl⟩

/-- C7: every batch request of length 0 or of length greater than 10 is
rejected at the boundary as BadRequest before the batch handler runs: no
per-item results are produced and no adapter call is made (the
fetch-call list is empty). -/
theorem batch_size_boundary
    (adapter : String → Except FetchError FetchedTranscript)
    (raw : List String)
    (h : raw.length = 0 ∨ raw.length > 10) :
    transcript_batch_endpoint adapter raw = (.error .badRequest, []) := by
  have hcond : (raw.length < 1 || raw.length > 10 : Bool) = true := by
    simp only [Bool.or_eq_true, decide_eq_true_eq]
    rcases h with h | h
    · exact Or.inl (by omega)
    · exact Or.inr h
  unfold transcript_batch_endpoint parse_batch_request
  rw [hcond]
  simp

/-- Witness for C7 at the empty batch. -/
theorem batch_size_boundary_witness :
    (([] : List String).length = 0 ∨ ([] : List String).length > 10) ∧
    transcript_batch_endpoint stubOk [] = (.error .badRequest, []) :=
  ⟨Or.inl rfl, batch_size_boundary stubOk [] (Or.inl rfl)⟩

/-- C10: in the batch path, every id passed to the adapter's fetch
matches the full pydantic pattern (length 11 over [A-Za-z0-9_-]),
because the boundary validates every id of the request body; on this
path the adapter never receives a syntactically malformed id. -/
theorem batch_fetched_ids_all_valid
    (adapter : String → Except FetchError FetchedTranscript)
    (raw : List String) (id : String)
    (h : id ∈ (transcript_batch_endpoint adapter raw).2) :
    matchesIdPattern id = true := by
  unfold transcript_batch_endpoint at h
  cases hp : parse_batch_request raw with
  | error e =>
    rw [hp] at h
    simp at h
  | ok ids =>
    rw [hp] at h
    simp only at h
    unfold parse_batch_request at hp
    split at hp
    · cases hp
    · split at hp
      case isTrue hall =>
        injection hp with hraw
        subst hraw
        exact List.all_eq_true.mp hall id h
      case isFalse _ =>
        cases hp

/-- Witness for C10: the singleton batch ["abcdefghijk"] fetches exactly
that id, and it matches the pattern. -/
theorem batch_fetched_ids_all_valid_witness :
    ("abcdefghijk" ∈ (transcript_batch_endpoint stubOk ["abcdefghijk"]).2) ∧
    matchesIdPattern "abcdefghijk" = true :=
  ⟨by decide,
   batch_fetched_ids_all_valid stubOk ["abcdefghijk"] "abcdefghijk" (by decide)⟩

/-- C2 counterexample: the batch ["abcdefghijk", "short"] has length 2
(within bounds) and an invalid id at position 1.  The claim predicts a
2-element per-item result array with a failure entry at position 1; the
endpoint instead rejects the whole request at the boundary and makes no
adapter call. -/
theorem batch_invalid_id_fails_whole_request :
    transcript_batch_endpoint stubOk ["abcdefghijk", "short"] =
      (.error .badRequest, []) := by
  rfl

/-- C2 amended: a batch whose length is within bounds but that contains
a syntactically invalid id (wrong length or a character outside
[A-Za-z0-9_-]) at some position is rejected whole at the boundary as
BadRequest: no per-item result array is produced and no adapter call is
made.  (A malformed id therefore does cause the whole batch request to
fail; per-item failure entries arise only from adapter failures on
pattern-valid ids.) -/
theorem batch_invalid_id_boundary_rejection
    (adapter : String → Except FetchError FetchedTranscript)
    (raw : List String) (i : Nat) (bad : String)
    (hlen : 1 ≤ raw.length ∧ raw.length ≤ 10)
    (hi : raw[i]? = some bad)
    (hbad : matchesIdPattern bad = false) :
    transcript_batch_endpoint adapter raw = (.error .badRequest, []) := by
  obtain ⟨hl, hu⟩ := hlen
  have hmem : bad ∈ raw := by
    have := List.getElem?_eq_some.mp hi
    obtain ⟨hlt, heq⟩ := this
    exact heq ▸ List.getElem_mem hlt
  have hc1 : (raw.length < 1 || raw.length > 10 : Bool) = false := by
    simp only [Bool.or_eq_false_iff, decide_eq_false_iff_not, not_lt]
    omega
  have hall : raw.all matchesIdPattern = false := by
    rcases hq : raw.all matchesIdPattern with _ | _
    · rfl
    · exact absurd (List.all_eq_true.mp hq bad hmem) (by simp [hbad])
  unfold transcript_batch_endpoint parse_batch_request
  rw [hc1, hall]
  simp

/-- Witness for C2 amended: the concrete batch ["abcdefghijk", "short"]
with the invalid id at position 1. -/
theorem batch_invalid_id_boundary_rejection_witness :
    (1 ≤ (["abcdefghijk", "short"] : List String).length ∧
      (["abcdefghijk", "short"] : List String).length ≤ 10) ∧
    (["abcdefghijk", "short"] : List String)[1]? = some "short" ∧
    matchesIdPattern "short" = false ∧
    transcript_batch_endpoint stubBlocked ["abcdefghijk", "short"] =
      (.error .badRequest, []) :=
  ⟨⟨by decide, by decide⟩, by decide, by decide,
   batch_invalid_id_boundary_rejection stubBlocked ["abcdefghijk", "short"] 1 "short"
     ⟨by decide, by decide⟩ (by decide) (by decide)⟩

/-- C5 counterexample: on a RequestBlocked failure the languages endpoint
produces (500, "An error occurred while fetching transcript list: ...")
whereas the S4.3 table (and the single-transcript handler) prescribes
(429, "Request blocked. Please try again later."); the two pairs differ,
so the languages endpoint does not classify identically. -/
theorem languages_requestBlocked_differs_from_table :
    get_available_languages stubListBlocked "abcdefghijk" =
      .error { status_code := 500,
               detail := "An error occurred while fetching transcript list: Request blocked" } ∧
    specClassify "abcdefghijk" { kind := .requestBlocked, detail := "Request blocked" } =
      { status_code := 429, detail := "Request blocked. Please try again later." } ∧
    ({ status_code := 500,
       detail := "An error occurred while fetching transcript list: Request blocked" } : ErrResponse) ≠
      specClassify "abcdefghijk" { kind := .requestBlocked, detail := "Request blocked" } :=
  ⟨rfl, rfl, by decide⟩

/-- C5 amended: the languages endpoint classifies only VideoUnavailable
identically to the table (404 with the same message); every other
adapter failure kind — including NoTranscriptFound, TranscriptsDisabled
and RequestBlocked — maps to 500 with the message "An error occurred
while fetching transcript list: (detail)". -/
theorem languages_error_classification
    (listAdapter : String → Except FetchError (List TranscriptMeta))
    (video_id : String) (e : FetchError)
    (hv : matchesIdPattern video_id = true)
    (hf : listAdapter video_id = .error e) :
    get_available_languages listAdapter video_id =
      .error (if e.kind = .videoUnavailable then
                { status_code := 404,
                  detail := "Video with ID " ++ pyQuote video_id ++ " is not available" }
              else
                { status_code := 500,
                  detail := "An error occurred while fetching transcript list: " ++ e.detail }) := by
  have hcond := guard_false_of_length_eq (length_of_matchesIdPattern hv)
  rcases e with ⟨k, d⟩
  cases k <;> simp [get_available_languages, hcond, hf]

/-- Witness for C5 amended at id "abcdefghijk" and a RequestBlocked
failure of the listing adapter. -/
theorem languages_error_classification_witness :
    matchesIdPattern "abcdefghijk" = true ∧
    get_available_languages stubListBlocked "abcdefghijk" =
      .error (if ({ kind := .requestBlocked, detail := "Request blocked" } : FetchError).kind =
                  FetchErrorKind.videoUnavailable then
                { status_code := 404,
                  detail := "Video with ID " ++ pyQuote "abcdefghijk" ++ " is not available" }
              else
                { status_code := 500,
                  detail := "An error occurred while fetching transcript list: " ++
                    ({ kind := .requestBlocked, detail := "Request blocked" } : FetchError).detail }) :=
  ⟨by decide,
   languages_error_classification stubListBlocked "abcdefghijk"
     { kind := .requestBlocked, detail := "Request blocked" } (by decide) rfl⟩

/-- C8: for every successful fetch of a valid id, the batch path
serializes every segment with `duration` and `offset` rendered as
strings (Python str() of the numeric values, plus the `lang` tag), while
the single-video path returns the same segments with `start` and
`duration` as the numeric values themselves; the asymmetry holds for
every segment of every successful item. -/
theorem batch_string_single_numeric_asymmetry
    (adapter : String → Except FetchError FetchedTranscript)
    (video_id : String) (t : FetchedTranscript)
    (hv : matchesIdPattern video_id = true)
    (hf : adapter video_id = .ok t) :
    processBatchItem adapter video_id =
      { success := true,
        transcript := some (t.segments.map fun s =>
          { text := s.text, duration := pyStr s.duration, offset := pyStr s.start,
            lang := t.language_code }),
        error := none } ∧
    (get_transcript adapter video_id).1 =
      .ok (t.segments.map fun s =>
        { text := s.text, start := s.start, duration := s.duration }) := by
  have hcond := guard_false_of_length_eq (length_of_matchesIdPattern hv)
  constructor
  · simp [processBatchItem, hf]
  · simp [get_transcript, hcond, hf, to_raw_data]

/-- Witness for C8 at id "abcdefghijk" with a two-segment transcript. -/
theorem batch_string_single_numeric_asymmetry_witness :
    matchesIdPattern "abcdefghijk" = true ∧
    processBatchItem stubTwoSegments "abcdefghijk" =
      { success := true,
        transcript := some (([{ text := "Hey there", start := 0, duration := 2 },
                              { text := "how are you", start := 2, duration := 4 }] :
            List FetchedSegment).map fun s =>
          { text := s.text, duration := pyStr s.duration, offset := pyStr s.start,
            lang := "en" }),
        error := none } ∧
    (get_transcript stubTwoSegments "abcdefghijk").1 =
      .ok (([{ text := "Hey there", start := 0, duration := 2 },
             { text := "how are you", start := 2, duration := 4 }] :
          List FetchedSegment).map fun s =>
        { text := s.text, start := s.start, duration := s.duration }) :=
  ⟨by decide,
   batch_string_single_numeric_asymmetry stubTwoSegments "abcdefghijk"
     { segments := [{ text := "Hey there", start := 0, duration := 2 },
                    { text := "how are you", start := 2, duration := 4 }],
       language_code := "en" } (by decide) rfl⟩
